import Mathlib

/-! ## flextool: configuration validation and discovery dispatch

A shallow embedding of `utils/utils.go`.

* Calls that leave the package (the filesystem probe, the interface lookup, the
  peer directory, the packet serializer, the UDP resolver and sockets, and the
  pure helpers `net.IP.To4`, `net.ParseIP`, `net.IP.String`) are fields of the
  `Host` record: every theorem holds for all of them.
* A run yields the list of host calls it performed together with its outcome;
  a Go run-time panic (nil dereference, failed type assertion) is the outcome
  `panicked`, `log.Fatal` is the outcome `exited`.
-/

namespace Flextool

/-! ## Data model -/

/-- The bytes of a `net.IP`; a nil `net.IP` is `none` where the field is optional. -/
abbrev IP := List Nat

/-- A Go `error` value coming from the host or built by `fmt.Errorf`: its text, and
whether `errors.Is(err, os.ErrNotExist)` holds for it. -/
structure GoError where
  text : String
  notExist : Bool
deriving DecidableEq, Repr

/-- The value of `fmt.Errorf(...)` with no wrapping verb: a fresh error that is not
`os.ErrNotExist`. -/
def Errorf (msg : String) : GoError := ⟨msg, false⟩

/-- Result of a Go call returning `(T, error)`. -/
inductive Res (α : Type) where
  | ok (a : α)
  | err (e : GoError)
deriving DecidableEq, Repr

/-- Dynamic type of a `net.Addr` element: a `*net.IPNet` carrying its IP, or a value
of any other type implementing `net.Addr`. -/
inductive Addr where
  | ipNet (ip : IP)
  | other (ip : IP)
deriving DecidableEq, Repr

/-- What `net.InterfaceByName` hands back: the fields of `net.Interface` the code
reads, and what its `Addrs()` method returns. -/
structure Interface where
  Index : Nat
  Name : String
  HardwareAddr : List Nat
  Addrs : Res (List Addr)
deriving DecidableEq, Repr

/-- The `OpnsenseApi` struct. -/
structure OpnsenseApi where
  Username : String := ""
  Password : String := ""
  Url : String := ""
deriving DecidableEq, Repr

/-- The `NetInteface` struct; its zero value is the default. -/
structure NetInteface where
  Name : String := ""
  IPAddress : Option IP := none
  MACAddress : List Nat := []
deriving DecidableEq, Repr

/-- The `ConfigOptions` struct; its zero value `ConfigOptions{}` is the default. A nil
entry of `Clients` is `none`. -/
structure ConfigOptions where
  Mode : String := ""
  PcapFile : String := ""
  NetworkInteface : NetInteface := {}
  Clients : List (Option IP) := []
  EnableBroadcast : Bool := false
  EnableDebug : Bool := false
  EnableDeleteUsers : Bool := false
  BPFFilter : String := ""
  OpnsenseApiConnection : OpnsenseApi := {}
deriving DecidableEq, Repr

/-- A `*pflag.FlagSet` as seen through `Lookup(name).Value.String()`: the current
value of each defined flag, `none` for a name that `Lookup` does not find. -/
abbrev FlagSet := String → Option String

/-- The `vrt.VRT` packet of the external protocol library (the two fields the
package reads). -/
structure VRT where
  Contents : List Nat
  Payload : List Nat
deriving DecidableEq, Repr

/-- A resolved `*net.UDPAddr`. -/
structure UDPAddr where
  IP : IP
  Port : Nat
deriving DecidableEq, Repr

/-- Everything outside the package. The `Nat` argument of the per-peer calls is the
position of the peer in the loop, so that the host may answer each call differently. -/
structure Host where
  /-- The error of `os.Stat(path)`, `none` when the probe succeeds. -/
  stat : String → Option GoError
  /-- The call `net.InterfaceByName(name)`. -/
  interfaceByName : String → Res Interface
  /-- The method `net.IP.To4`, `none` for a nil result. -/
  to4 : IP → Option IP
  /-- The function `net.ParseIP`, `none` for a nil result. -/
  parseIP : String → Option IP
  /-- The method `net.IP.String`. -/
  ipString : Option IP → String
  /-- The error of `UsersDb()`, `none` when the handle is obtained. -/
  usersDb : Option GoError
  /-- The call `p.SerializeTo(buf, opts)` followed by `buf.Bytes()`. -/
  serializeTo : VRT → Res (List Nat)
  /-- The call `u.GetUserIpAddresses()`. -/
  getUserIpAddresses : Res (List String)
  /-- The call `net.ResolveUDPAddr("udp", address)` made for the peer at a position. -/
  resolveUDPAddr : Nat → String → Res UDPAddr
  /-- The error of `net.DialUDP("udp", laddr, raddr)` for the peer at a position. -/
  dialUDP : Nat → UDPAddr → UDPAddr → Option GoError
  /-- The error of `Conn.Write(b)` on the socket of the peer at a position. -/
  connWrite : Nat → List Nat → Option GoError

/-- How a run ends. -/
inductive Outcome (α : Type) where
  | returned (a : α)
  | panicked
  | exited
deriving DecidableEq, Repr

/-- An operand of `fmt.Println` or `log.Fatal`. -/
inductive PrintArg where
  | str (s : String)
  | error (e : GoError)
  | iface (ni : NetInteface)
deriving DecidableEq, Repr

/-- An observable step of a run, in program order. -/
inductive Event where
  | stat (path : String)
  | interfaceByName (name : String)
  | addrs (name : String)
  | println (args : List PrintArg)
  | usersDb
  | serialize
  | getUserIpAddresses
  | resolve (address : String)
  | dial (sock : Nat) (laddr raddr : UDPAddr) (opened : Bool)
  | write (sock : Nat) (raddr : UDPAddr) (b : List Nat) (sent : Bool)
  | close (sock : Nat)
  | fatal (args : List PrintArg)
deriving DecidableEq, Repr

/-- A run: the events it performed and how it ended. -/
structure Run (α : Type) where
  trace : List Event
  outcome : Outcome α
deriving DecidableEq, Repr

/-! ## Interface resolver (`ValidateNetworkInterfaceByName`, lines 83-105) -/

/-- The `for _, addr := range addrs` loop of lines 96-101: `addr.(*net.IPNet)` panics on
an element of another type; the first element whose `To4()` is not nil is stored and
returned at once; `none` inside `returned` means the loop ran to its end. -/
def firstIPv4 (to4 : IP → Option IP) : List Addr → Outcome (Option IP)
  | [] => .returned none
  | .other _ :: _ => .panicked
  | .ipNet ip :: rest =>
    match to4 ip with
    | some ipv4Addr => .returned (some ipv4Addr)
    | none => firstIPv4 to4 rest

/-- The function `ValidateNetworkInterfaceByName`. -/
def ValidateNetworkInterfaceByName (h : Host) (name : String) :
    Run (NetInteface × Option GoError) :=
  match h.interfaceByName name with
  | .err e => ⟨[.interfaceByName name], .returned ({}, some e)⟩
  | .ok netInterface =>
    let ni : NetInteface := { Name := netInterface.Name, MACAddress := netInterface.HardwareAddr }
    match netInterface.Addrs with
    | .err _ => ⟨[.interfaceByName name, .addrs name], .returned (ni, none)⟩
    | .ok addrs =>
      match firstIPv4 h.to4 addrs with
      | .returned (some ipv4Addr) =>
        ⟨[.interfaceByName name, .addrs name], .returned ({ ni with IPAddress := some ipv4Addr }, none)⟩
      | .returned none => ⟨[.interfaceByName name, .addrs name], .returned (ni, none)⟩
      | _ => ⟨[.interfaceByName name, .addrs name], .panicked⟩

/-! ## Config validator (`ValidateConfigOptions`, lines 107-188) -/

/-- The pieces of `strings.Split(s, ",")` on the characters of `s`. -/
def splitComma : List Char → List (List Char)
  | [] => [[]]
  | c :: cs =>
    if c = ',' then [] :: splitComma cs
    else
      match splitComma cs with
      | [] => [[c]]
      | piece :: pieces => (c :: piece) :: pieces

/-- The call `strings.Split(s, ",")`. -/
def Split (s : String) : List String :=
  (splitComma s.data).map String.mk

/-- Lines 174-184: the client list, computed only when `co.EnableBroadcast` is set. -/
def validateClients (h : Host) (co : ConfigOptions) (flag_clients : String) : ConfigOptions :=
  if co.EnableBroadcast then
    { co with Clients := (Split flag_clients).map h.parseIP }
  else co

/-- Lines 160-187: the interface lookup and resolution, the filter and the clients. -/
def validateInterface (h : Host) (all_flags : FlagSet) (co : ConfigOptions)
    (flag_clients flag_bpffilter : String) (pre : List Event) :
    Run (ConfigOptions × Option GoError) :=
  match all_flags "interface" with
  | none => ⟨pre, .panicked⟩
  | some flag_interface =>
    let r := ValidateNetworkInterfaceByName h flag_interface
    match r.outcome with
    | .returned (_, some err) => ⟨pre ++ r.trace, .returned (co, some err)⟩
    | .returned (tempNetworkInterface, none) =>
      let co := { co with NetworkInteface := tempNetworkInterface }
      let co := if flag_bpffilter ≠ "" then { co with BPFFilter := flag_bpffilter }
        else { co with BPFFilter := "udp and port 4992 and dst host 255.255.255.255" }
      ⟨pre ++ r.trace, .returned (validateClients h co flag_clients, none)⟩
    | .panicked => ⟨pre ++ r.trace, .panicked⟩
    | .exited => ⟨pre ++ r.trace, .exited⟩

/-- Lines 144-158, then the rest: the two boolean switches. -/
def validateBooleans (h : Host) (all_flags : FlagSet) (co : ConfigOptions)
    (flag_broadcast flag_debug flag_clients flag_bpffilter : String) (pre : List Event) :
    Run (ConfigOptions × Option GoError) :=
  let co := if flag_broadcast = "true" then { co with EnableBroadcast := true }
    else { co with EnableBroadcast := false }
  let co := if flag_debug = "true" then { co with EnableDebug := true }
    else { co with EnableDebug := false }
  validateInterface h all_flags co flag_clients flag_bpffilter pre

/-- Lines 115-127: the `switch mode`; `none` is the `default:` branch. -/
def modeSwitch (mode : String) : Option ConfigOptions :=
  if mode = "info" then some { Mode := "info" }
  else if mode = "pcap" then some { Mode := "pcap" }
  else if mode = "listen" then some { Mode := "listen" }
  else none

/-- Lines 115-142, then the rest: the mode switch and the pcap-file probe, with the
five flag values of lines 109-113 already read. -/
def validateMode (h : Host) (mode : String) (all_flags : FlagSet)
    (flag_pcapfile flag_broadcast flag_debug flag_clients flag_bpffilter : String) :
    Run (ConfigOptions × Option GoError) :=
  match modeSwitch mode with
  | none =>
    ⟨[], .returned ({},
      some (Errorf ("the requested mode \"" ++ mode ++ "\" is not a valid mode")))⟩
  | some co =>
    if co.Mode = "pcap" then
      match h.stat flag_pcapfile with
      | none =>
        validateBooleans h all_flags { co with PcapFile := flag_pcapfile }
          flag_broadcast flag_debug flag_clients flag_bpffilter [.stat flag_pcapfile]
      | some err =>
        if err.notExist then
          ⟨[.stat flag_pcapfile], .returned ({},
            some (Errorf ("the requested pcapfile \"" ++ flag_pcapfile ++ "\" does not exist")))⟩
        else ⟨[.stat flag_pcapfile], .returned ({}, some err)⟩
    else
      validateBooleans h all_flags co flag_broadcast flag_debug flag_clients flag_bpffilter []

/-- The function `ValidateConfigOptions`. Lines 109-113 dereference the result of
`Lookup` at once, so a flag that is not defined ends the run with a panic. -/
def ValidateConfigOptions (h : Host) (mode : String) (all_flags : FlagSet) :
    Run (ConfigOptions × Option GoError) :=
  match all_flags "pcapfile" with
  | none => ⟨[], .panicked⟩
  | some flag_pcapfile =>
  match all_flags "broadcast" with
  | none => ⟨[], .panicked⟩
  | some flag_broadcast =>
  match all_flags "debug" with
  | none => ⟨[], .panicked⟩
  | some flag_debug =>
  match all_flags "clients" with
  | none => ⟨[], .panicked⟩
  | some flag_clients =>
  match all_flags "filter" with
  | none => ⟨[], .panicked⟩
  | some flag_bpffilter =>
    validateMode h mode all_flags flag_pcapfile flag_broadcast flag_debug flag_clients
      flag_bpffilter

/-! ## Discovery dispatcher (`MaybeSendDiscoveryPacket`, lines 216-281) -/

/-- The deferred `Conn.Close()` calls, run when the function returns: the stack holds
the sockets of the `defer` statements executed so far, the latest first. -/
def runDeferred (deferred : List Nat) : List Event :=
  deferred.map Event.close

/-- The `for _, clientIp := range client_ips` loop of lines 251-280, from the peer at
position `i` on, followed by the function's return. Every failure branch is a
`return`; `defer Conn.Close()` pushes the socket on the stack of deferred calls. -/
def sendLoop (h : Host) (co : ConfigOptions) (b : List Nat) :
    Nat → List String → List Nat → List Event
  | _, [], deferred => runDeferred deferred
  | i, clientIp :: rest, deferred =>
    .println [.str "Sending to Discovery Packet to", .str clientIp, .str "on interface",
        .str co.NetworkInteface.Name] ::
    .resolve (clientIp ++ ":4992") ::
    match h.resolveUDPAddr i (clientIp ++ ":4992") with
    | .err err => .println [.str "error with ServerAddr: ", .error err] :: runDeferred deferred
    | .ok ServerAddr =>
      .resolve (h.ipString co.NetworkInteface.IPAddress ++ ":0") ::
      match h.resolveUDPAddr i (h.ipString co.NetworkInteface.IPAddress ++ ":0") with
      | .err err =>
        .println [.str "DEBUG co.NetworkInteface: ", .iface co.NetworkInteface] ::
        .println [.str "error with LocalAddr: ", .error err] :: runDeferred deferred
      | .ok LocalAddr =>
        match h.dialUDP i LocalAddr ServerAddr with
        | some err =>
          .dial i LocalAddr ServerAddr false ::
          .println [.str "error with Conn: ", .error err] :: runDeferred deferred
        | none =>
          .dial i LocalAddr ServerAddr true ::
          match h.connWrite i b with
          | some err =>
            .write i ServerAddr b false ::
            .println [.str "error sending udp packet: ", .error err] ::
            runDeferred (i :: deferred)
          | none =>
            .write i ServerAddr b true :: sendLoop h co b (i + 1) rest (i :: deferred)

/-- The function `MaybeSendDiscoveryPacket`. -/
def MaybeSendDiscoveryPacket (h : Host) (co : ConfigOptions) (p : VRT) : Run Unit :=
  if !co.EnableBroadcast then
    ⟨[.println [.str "Send Discovery Packet Disabled"]], .returned ()⟩
  else
    match h.usersDb with
    | some err => ⟨[.usersDb, .fatal [.str "error accessing db: ", .str err.text]], .exited⟩
    | none =>
      match h.serializeTo p with
      | .err err =>
        ⟨[.usersDb, .serialize,
          .println [.str "Unable to serialize VRT packet into byte stream: ", .error err]],
          .returned ()⟩
      | .ok b =>
        match h.getUserIpAddresses with
        | .err err =>
          ⟨[.usersDb, .serialize, .getUserIpAddresses,
            .println [.str "Error retrieving vpn client ips from sqlite db: ", .error err]],
            .returned ()⟩
        | .ok client_ips =>
          ⟨[.usersDb, .serialize, .getUserIpAddresses] ++ sendLoop h co b 0 client_ips [],
            .returned ()⟩

/-! ## Observations on traces and flag sets -/

/-- The flag set with one name redefined (`some v`) or removed (`none`). -/
def setFlag (fs : FlagSet) (name : String) (v : Option String) : FlagSet :=
  fun n => if n = name then v else fs n

/-- The error component of a validation outcome. -/
def errorOf : Outcome (ConfigOptions × Option GoError) → Outcome (Option GoError)
  | .returned (_, e) => .returned e
  | .panicked => .panicked
  | .exited => .exited

/-- Whether an event is a filesystem probe. -/
def Event.isStat : Event → Bool
  | .stat _ => true
  | _ => false

/-- Whether an event touches a socket, the resolver, the peer directory or the
packet serializer. -/
def Event.isDispatchWork : Event → Bool
  | .usersDb => true
  | .serialize => true
  | .getUserIpAddresses => true
  | .resolve _ => true
  | .dial _ _ _ _ => true
  | .write _ _ _ _ => true
  | .close _ => true
  | _ => false

/-- Whether an event is a call to the peer directory or the serializer. -/
def Event.isLookup : Event → Bool
  | .usersDb => true
  | .serialize => true
  | .getUserIpAddresses => true
  | _ => false

/-- The successful sends of a trace, in order: destination and bytes written. -/
def sends : List Event → List (UDPAddr × List Nat)
  | [] => []
  | .write _ raddr b true :: es => (raddr, b) :: sends es
  | _ :: es => sends es

/-- The sockets open after a trace, starting from the set `opened`: a successful dial
opens its socket, a close releases it. -/
def openAfter : List Nat → List Event → List Nat
  | opened, [] => opened
  | opened, .dial sock _ _ true :: es => openAfter (sock :: opened) es
  | opened, .close sock :: es => openAfter (opened.erase sock) es
  | opened, _ :: es => openAfter opened es

/-- The largest number of sockets open at the same time along a trace. -/
def maxOpen : List Nat → List Event → Nat
  | opened, [] => opened.length
  | opened, .dial sock _ _ true :: es => max opened.length (maxOpen (sock :: opened) es)
  | opened, .close sock :: es => max opened.length (maxOpen (opened.erase sock) es)
  | opened, _ :: es => maxOpen opened es

/-- The destination of a peer all of whose four steps succeed at position `i`; `none`
when its destination resolution, local-address resolution, dial or write fails. -/
def peerSucceeds (h : Host) (co : ConfigOptions) (b : List Nat) (i : Nat)
    (clientIp : String) : Option UDPAddr :=
  match h.resolveUDPAddr i (clientIp ++ ":4992") with
  | .err _ => none
  | .ok ServerAddr =>
    match h.resolveUDPAddr i (h.ipString co.NetworkInteface.IPAddress ++ ":0") with
    | .err _ => none
    | .ok LocalAddr =>
      match h.dialUDP i LocalAddr ServerAddr, h.connWrite i b with
      | none, none => some ServerAddr
      | _, _ => none

/-- The peers that come before the first peer with a failing step, each with its
destination and the payload, in list order; positions count from `i`. -/
def servedBeforeFailure (h : Host) (co : ConfigOptions) (b : List Nat) (i : Nat)
    (peers : List String) : List (UDPAddr × List Nat) :=
  ((peers.enumFrom i).takeWhile (fun jp => (peerSucceeds h co b jp.1 jp.2).isSome)).filterMap
    (fun jp => (peerSucceeds h co b jp.1 jp.2).map (fun ServerAddr => (ServerAddr, b)))

/-- The IP carried by a reported address. -/
def Addr.ip : Addr → IP
  | .ipNet ip => ip
  | .other ip => ip

/-- Whether a reported address is a `*net.IPNet`. -/
def Addr.isIPNet : Addr → Bool
  | .ipNet _ => true
  | .other _ => false

/-- The 4-byte form of the first address, in reported order, that has a valid IPv4
form; `none` when no address has one. -/
def firstWithIPv4 (to4 : IP → Option IP) (addrs : List Addr) : Option IP :=
  (addrs.find? (fun a => (to4 a.ip).isSome)).bind (fun a => to4 a.ip)

/-- The configuration a successful validation returns, from the mode, the five flag
values read at entry and the resolved interface. -/
def successConfig (h : Host) (mode flag_pcapfile flag_broadcast flag_debug flag_clients
    flag_bpffilter : String) (ni : NetInteface) : ConfigOptions :=
  { Mode := mode
    PcapFile := if mode = "pcap" then flag_pcapfile else ""
    NetworkInteface := ni
    Clients := if flag_broadcast = "true" then (Split flag_clients).map h.parseIP else []
    EnableBroadcast := decide (flag_broadcast = "true")
    EnableDebug := decide (flag_debug = "true")
    BPFFilter := if flag_bpffilter = "" then "udp and port 4992 and dst host 255.255.255.255"
      else flag_bpffilter }

/-- Whether every reported address up to and including the first one with a valid
IPv4 form (every reported address when none has one) is a `*net.IPNet`. -/
def scannedAreIPNet (to4 : IP → Option IP) (addrs : List Addr) : Bool :=
  (addrs.takeWhile (fun a => (to4 a.ip).isNone)).all Addr.isIPNet &&
    (addrs.find? (fun a => (to4 a.ip).isSome)).all Addr.isIPNet

/-- The pieces joined again, with a comma between neighbours. -/
def joinComma : List (List Char) → List Char
  | [] => []
  | [piece] => piece
  | piece :: next :: rest => piece ++ ',' :: joinComma (next :: rest)

/-! ## A concrete host and flag set -/

/-- A sample implementation of `To4`: a 4-byte address is kept, a 16-byte address
with the IPv4-mapped header is cut to its last four bytes. -/
def sampleTo4 (ip : IP) : Option IP :=
  if ip.length = 4 then some ip
  else if ip.length = 16 ∧ ip.take 12 = [0, 0, 0, 0, 0, 0, 0, 0, 0, 0, 255, 255] then
    some (ip.drop 12)
  else none

/-- A sample host: one file exists, one is unreadable; the interface `eth0` has an
IPv6 and an IPv4 address, `tun0` reports an address that is no `*net.IPNet`; the
peer directory lists two peers and every network step succeeds. -/
def sampleHost : Host where
  stat := fun path =>
    if path = "/tmp/capture.pcap" then none
    else if path = "/root/locked.pcap" then some ⟨"permission denied", false⟩
    else some ⟨"no such file or directory", true⟩
  interfaceByName := fun name =>
    if name = "eth0" then
      .ok { Index := 2, Name := "eth0", HardwareAddr := [2, 66, 172, 17, 0, 2],
            Addrs := .ok [.ipNet [254, 128, 0, 0, 0, 0, 0, 0, 0, 66, 172, 255, 254, 17, 0, 2],
                          .ipNet [192, 168, 1, 10], .ipNet [10, 8, 0, 1]] }
    else if name = "tun0" then
      .ok { Index := 3, Name := "tun0", HardwareAddr := [],
            Addrs := .ok [.other [10, 8, 0, 1]] }
    else .err ⟨"route ip+net: no such network interface", false⟩
  to4 := sampleTo4
  parseIP := fun s =>
    if s = "10.0.0.5" then some [10, 0, 0, 5]
    else if s = "10.0.0.6" then some [10, 0, 0, 6]
    else none
  ipString := fun ip => if ip = some [192, 168, 1, 10] then "192.168.1.10" else "<nil>"
  usersDb := none
  serializeTo := fun p => .ok p.Contents
  getUserIpAddresses := .ok ["10.0.0.5", "10.0.0.6"]
  resolveUDPAddr := fun _ address =>
    if address = "10.0.0.5:4992" then .ok ⟨[10, 0, 0, 5], 4992⟩
    else if address = "10.0.0.6:4992" then .ok ⟨[10, 0, 0, 6], 4992⟩
    else if address = "192.168.1.10:0" then .ok ⟨[192, 168, 1, 10], 0⟩
    else .err ⟨"lookup: no such host", false⟩
  dialUDP := fun _ _ _ => none
  connWrite := fun _ _ => none

/-- The sample host with one more interface, `wg0`, which reports an IPv6
`*net.IPNet`, an IPv4 `*net.IPNet` and then an address that is no `*net.IPNet`. -/
def sampleHostMixedAddrs : Host :=
  { sampleHost with
    interfaceByName := fun name =>
      if name = "wg0" then
        .ok { Index := 4, Name := "wg0", HardwareAddr := [],
              Addrs := .ok [.ipNet [254, 128, 0, 0, 0, 0, 0, 0, 0, 0, 0, 0, 0, 0, 0, 1],
                            .ipNet [192, 168, 1, 10], .other [10, 8, 0, 1]] }
      else sampleHost.interfaceByName name }

/-- The sample host with a peer directory whose first entry does not resolve. -/
def sampleHostBadFirstPeer : Host :=
  { sampleHost with getUserIpAddresses := .ok ["not-a-host", "10.0.0.6"] }

/-- A sample flag set in which the six flags are defined. -/
def sampleFlags : FlagSet := fun name =>
  if name = "pcapfile" then some "/tmp/capture.pcap"
  else if name = "broadcast" then some "true"
  else if name = "debug" then some "false"
  else if name = "clients" then some "10.0.0.5,bogus,10.0.0.6"
  else if name = "filter" then some ""
  else if name = "interface" then some "eth0"
  else none

/-- A sample packet. -/
def samplePacket : VRT := ⟨[56, 0, 0, 2, 1, 2], [1, 2]⟩

/-- The configuration that validating the sample flags in mode `listen` returns on the
sample host; broadcasting is enabled. -/
def sampleConfig : ConfigOptions :=
  { Mode := "listen",
    NetworkInteface := { Name := "eth0", IPAddress := some [192, 168, 1, 10],
                         MACAddress := [2, 66, 172, 17, 0, 2] },
    Clients := [some [10, 0, 0, 5], none, some [10, 0, 0, 6]],
    EnableBroadcast := true,
    BPFFilter := "udp and port 4992 and dst host 255.255.255.255" }

/-! ## Theorems: interface resolver -/

/-- On a list of `*net.IPNet` addresses the loop of lines 96-101 never panics and finds
the first address with an IPv4 form. -/
theorem firstIPv4_of_isIPNet (to4 : IP → Option IP) (addrs : List Addr)
    (hnet : ∀ a ∈ addrs, a.isIPNet = true) :
    firstIPv4 to4 addrs = .returned (firstWithIPv4 to4 addrs) := by
  induction addrs with
  | nil => rfl
  | cons a rest ih =>
    have hrest : ∀ a ∈ rest, a.isIPNet = true := fun x hx => hnet x (List.mem_cons_of_mem _ hx)
    cases a with
    | other ip => simpa [Addr.isIPNet] using hnet (.other ip) (List.mem_cons_self _ _)
    | ipNet ip =>
      cases hto : to4 ip with
      | some v => simp [firstIPv4, firstWithIPv4, Addr.ip, hto]
      | none =>
        have := ih hrest
        simp [firstIPv4, firstWithIPv4, Addr.ip, hto] at this ⊢
        exact this

/-- The loop of lines 96-101 panics exactly when an address that is no `*net.IPNet`
is reached, that is, when one stands before every `*net.IPNet` address with an IPv4
form. -/
theorem firstIPv4_panicked_iff (to4 : IP → Option IP) (addrs : List Addr) :
    firstIPv4 to4 addrs = .panicked ↔
      ∃ pre ip rest, addrs = pre ++ Addr.other ip :: rest ∧
        ∀ a ∈ pre, a.isIPNet = true ∧ to4 a.ip = none := by
  induction addrs with
  | nil => simp [firstIPv4]
  | cons a tl ih =>
    cases a with
    | other ip =>
      simp only [firstIPv4, true_iff]
      exact ⟨[], ip, tl, rfl, by simp⟩
    | ipNet ip =>
      cases hto : to4 ip with
      | some v =>
        simp only [firstIPv4, hto]
        constructor
        · intro hc
          cases hc
        · rintro ⟨pre, ip2, rest, heq, hpre⟩
          cases pre with
          | nil => simp at heq
          | cons b pre2 =>
            simp only [List.cons_append, List.cons.injEq] at heq
            have := (hpre b (List.mem_cons_self _ _)).2
            rw [← heq.1] at this
            simp [Addr.ip, hto] at this
      | none =>
        simp only [firstIPv4, hto, ih]
        constructor
        · rintro ⟨pre, ip2, rest, heq, hpre⟩
          refine ⟨Addr.ipNet ip :: pre, ip2, rest, by simp [heq], ?_⟩
          intro a ha
          rcases List.mem_cons.mp ha with rfl | ha
          · exact ⟨rfl, by simpa [Addr.ip] using hto⟩
          · exact hpre a ha
        · rintro ⟨pre, ip2, rest, heq, hpre⟩
          cases pre with
          | nil => simp at heq
          | cons b pre2 =>
            simp only [List.cons_append, List.cons.injEq] at heq
            exact ⟨pre2, ip2, rest, heq.2, fun a ha => hpre a (List.mem_cons_of_mem _ ha)⟩

/-- The loop of lines 96-101, characterised: it returns the first IPv4 form when every
address up to and including the first one with an IPv4 form is a `*net.IPNet`, and
panics otherwise. -/
theorem firstIPv4_eq (to4 : IP → Option IP) (addrs : List Addr) :
    firstIPv4 to4 addrs =
      if scannedAreIPNet to4 addrs then .returned (firstWithIPv4 to4 addrs) else .panicked := by
  induction addrs with
  | nil => rfl
  | cons a rest ih =>
    cases a with
    | other ip =>
      cases hto : to4 ip <;>
        simp [firstIPv4, scannedAreIPNet, Addr.ip, Addr.isIPNet, hto, List.takeWhile_cons]
    | ipNet ip =>
      cases hto : to4 ip with
      | some v =>
        simp [firstIPv4, scannedAreIPNet, firstWithIPv4, Addr.ip, Addr.isIPNet, hto,
          List.takeWhile_cons]
      | none =>
        have hs : scannedAreIPNet to4 (Addr.ipNet ip :: rest) = scannedAreIPNet to4 rest := by
          simp [scannedAreIPNet, Addr.ip, Addr.isIPNet, hto, List.takeWhile_cons]
        have hw : firstWithIPv4 to4 (Addr.ipNet ip :: rest) = firstWithIPv4 to4 rest := by
          simp [firstWithIPv4, Addr.ip, hto]
        simp only [firstIPv4, hto, hs, hw]
        exact ih

/-- Claim C10, as amended: if the interface lookup fails, `ValidateNetworkInterfaceByName`
returns the zero `NetInteface` with the lookup error unchanged; otherwise, for every
reported list of addresses in which every address up to and including the first one
with a valid IPv4 form (every address when none has one) is a `*net.IPNet`, it returns
no error, the interface's name and hardware address, and as `IPAddress` the 4-byte form
of the first address in reported order that has a valid IPv4 form, absent when there
is none. On every other reported list the run panics at line 97. -/
theorem C10_resolver_first_ipv4 (h : Host) (name : String) :
    (∀ e, h.interfaceByName name = .err e →
      (ValidateNetworkInterfaceByName h name).outcome = .returned ({}, some e)) ∧
    (∀ itf addrs, h.interfaceByName name = .ok itf → itf.Addrs = .ok addrs →
      scannedAreIPNet h.to4 addrs = true →
      (ValidateNetworkInterfaceByName h name).outcome =
        .returned ({ Name := itf.Name, IPAddress := firstWithIPv4 h.to4 addrs,
                     MACAddress := itf.HardwareAddr }, none)) ∧
    (∀ itf addrs, h.interfaceByName name = .ok itf → itf.Addrs = .ok addrs →
      scannedAreIPNet h.to4 addrs = false →
      (ValidateNetworkInterfaceByName h name).outcome = .panicked) := by
  refine ⟨?_, ?_, ?_⟩
  · intro e he
    simp [ValidateNetworkInterfaceByName, he]
  · intro itf addrs hi ha hscan
    have hf : firstIPv4 h.to4 addrs = .returned (firstWithIPv4 h.to4 addrs) := by
      rw [firstIPv4_eq, hscan]
      rfl
    cases hw : firstWithIPv4 h.to4 addrs with
    | none => simp [ValidateNetworkInterfaceByName, hi, ha, hf, hw]
    | some v => simp [ValidateNetworkInterfaceByName, hi, ha, hf, hw]
  · intro itf addrs hi ha hscan
    have hf : firstIPv4 h.to4 addrs = .panicked := by
      rw [firstIPv4_eq, hscan]
      rfl
    simp [ValidateNetworkInterfaceByName, hi, ha, hf]

/-- Witness for C10: the interface `wg0` (an IPv6 address, an IPv4 address, then an
address that is no `*net.IPNet`, which the loop never reaches), the interface `tun0`
(a single address that is no `*net.IPNet`) and the unknown interface `nope0`. -/
theorem C10_resolver_first_ipv4_witness :
    scannedAreIPNet sampleHostMixedAddrs.to4
        [.ipNet [254, 128, 0, 0, 0, 0, 0, 0, 0, 0, 0, 0, 0, 0, 0, 1],
         .ipNet [192, 168, 1, 10], .other [10, 8, 0, 1]] = true ∧
    (ValidateNetworkInterfaceByName sampleHostMixedAddrs "wg0").outcome =
        .returned ({ Name := "wg0", IPAddress := some [192, 168, 1, 10],
                     MACAddress := [] }, none) ∧
    (ValidateNetworkInterfaceByName sampleHostMixedAddrs "nope0").outcome =
        .returned ({}, some ⟨"route ip+net: no such network interface", false⟩) ∧
    (ValidateNetworkInterfaceByName sampleHostMixedAddrs "tun0").outcome = .panicked :=
  ⟨by decide,
   (C10_resolver_first_ipv4 sampleHostMixedAddrs "wg0").2.1 _ _ rfl rfl (by decide),
   (C10_resolver_first_ipv4 sampleHostMixedAddrs "nope0").1 _ rfl,
   (C10_resolver_first_ipv4 sampleHostMixedAddrs "tun0").2.2 _ _ rfl rfl (by decide)⟩

/-- Counterexample to C10 as stated: the interface `tun0` of the sample host reports
one address that is no `*net.IPNet`; the lookup succeeds, yet the run panics at the
type assertion of line 97 and returns no result. -/
theorem C10_counterexample :
    sampleHost.interfaceByName "tun0" =
        .ok { Index := 3, Name := "tun0", HardwareAddr := [],
              Addrs := .ok [.other [10, 8, 0, 1]] } ∧
    (ValidateNetworkInterfaceByName sampleHost "tun0").outcome = .panicked := by
  decide

/-! ## Theorems: config validator -/

theorem setFlag_same (fs : FlagSet) (name : String) (v : Option String) :
    setFlag fs name v name = v := by
  simp [setFlag]

theorem setFlag_other (fs : FlagSet) (name n : String) (v : Option String) (hne : n ≠ name) :
    setFlag fs name v n = fs n := by
  simp [setFlag, hne]

/-- With the five flags of lines 109-113 defined, the run is the run of the mode switch
and what follows it. -/
theorem ValidateConfigOptions_of_defined (h : Host) (mode : String) (fs : FlagSet)
    {p b d c f : String} (hp : fs "pcapfile" = some p) (hb : fs "broadcast" = some b)
    (hd : fs "debug" = some d) (hc : fs "clients" = some c) (hf : fs "filter" = some f) :
    ValidateConfigOptions h mode fs = validateMode h mode fs p b d c f := by
  simp [ValidateConfigOptions, hp, hb, hd, hc, hf]

/-- With one of the five flags of lines 109-113 not defined, the run panics before any
host call. -/
theorem ValidateConfigOptions_of_undefined (h : Host) (mode : String) (fs : FlagSet)
    (hu : fs "pcapfile" = none ∨ fs "broadcast" = none ∨ fs "debug" = none ∨
      fs "clients" = none ∨ fs "filter" = none) :
    ValidateConfigOptions h mode fs = ⟨[], .panicked⟩ := by
  unfold ValidateConfigOptions
  cases hp : fs "pcapfile" <;> cases hb : fs "broadcast" <;> cases hd : fs "debug" <;>
    cases hc : fs "clients" <;> cases hf : fs "filter" <;> simp_all

/-- The outcome of lines 144-187 once the interface flag is defined. -/
theorem validateBooleans_outcome (h : Host) (fs : FlagSet) (co : ConfigOptions)
    (b d c f n : String) (pre : List Event) (hn : fs "interface" = some n) :
    (validateBooleans h fs co b d c f pre).outcome =
      match (ValidateNetworkInterfaceByName h n).outcome with
      | .returned (_, some err) =>
        .returned ({ co with EnableBroadcast := decide (b = "true"),
                             EnableDebug := decide (d = "true") }, some err)
      | .returned (ni, none) =>
        .returned ({ co with
          NetworkInteface := ni
          Clients := if b = "true" then (Split c).map h.parseIP else co.Clients
          EnableBroadcast := decide (b = "true")
          EnableDebug := decide (d = "true")
          BPFFilter := if f = "" then "udp and port 4992 and dst host 255.255.255.255"
            else f }, none)
      | .panicked => .panicked
      | .exited => .exited := by
  rcases hr : (ValidateNetworkInterfaceByName h n).outcome with ⟨ni, _ | err⟩ | _ | _
  · by_cases hb : b = "true" <;> by_cases hd : d = "true" <;> by_cases hf : f = "" <;>
      simp [validateBooleans, validateInterface, validateClients, hn, hr, hb, hd, hf]
  · by_cases hb : b = "true" <;> by_cases hd : d = "true" <;>
      simp [validateBooleans, validateInterface, hn, hr, hb, hd]
  · simp [validateBooleans, validateInterface, hn, hr]
  · simp [validateBooleans, validateInterface, hn, hr]

/-- The trace of lines 144-187: the events before, then those of the resolver. -/
theorem validateBooleans_trace (h : Host) (fs : FlagSet) (co : ConfigOptions)
    (b d c f : String) (pre : List Event) :
    (validateBooleans h fs co b d c f pre).trace =
      match fs "interface" with
      | none => pre
      | some n => pre ++ (ValidateNetworkInterfaceByName h n).trace := by
  cases hn : fs "interface" with
  | none => simp [validateBooleans, validateInterface, hn]
  | some n =>
    rcases hr : (ValidateNetworkInterfaceByName h n).outcome with ⟨ni, _ | err⟩ | _ | _ <;>
      simp [validateBooleans, validateInterface, hn, hr]

/-- The host calls of the resolver: the lookup, and `Addrs()` when the lookup
succeeds. -/
theorem ValidateNetworkInterfaceByName_trace (h : Host) (name : String) :
    (ValidateNetworkInterfaceByName h name).trace =
      match h.interfaceByName name with
      | .err _ => [.interfaceByName name]
      | .ok _ => [.interfaceByName name, .addrs name] := by
  unfold ValidateNetworkInterfaceByName
  cases hi : h.interfaceByName name with
  | err e => rfl
  | ok itf =>
    cases ha : itf.Addrs with
    | err e => simp [ha]
    | ok addrs =>
      rcases hf : firstIPv4 h.to4 addrs with (_ | v) | _ | _ <;> simp [ha, hf]

/-- The resolver performs no filesystem probe. -/
theorem ValidateNetworkInterfaceByName_no_stat (h : Host) (name : String) :
    ∀ e ∈ (ValidateNetworkInterfaceByName h name).trace, e.isStat = false := by
  rw [ValidateNetworkInterfaceByName_trace]
  cases h.interfaceByName name <;> simp [Event.isStat]

/-- The mode switch accepts exactly the three modes and stores the mode it is given. -/
theorem modeSwitch_eq (mode : String) :
    modeSwitch mode =
      if mode = "info" ∨ mode = "pcap" ∨ mode = "listen" then some { Mode := mode } else none := by
  unfold modeSwitch
  by_cases h1 : mode = "info"
  · simp [h1]
  · by_cases h2 : mode = "pcap"
    · simp [h2]
    · by_cases h3 : mode = "listen"
      · simp [h3]
      · simp [h1, h2, h3]

/-- When the interface flag is not defined, lines 144-187 end in a panic. -/
theorem validateBooleans_of_undefined (h : Host) (fs : FlagSet) (co : ConfigOptions)
    (b d c f : String) (pre : List Event) (hn : fs "interface" = none) :
    validateBooleans h fs co b d c f pre = ⟨pre, .panicked⟩ := by
  simp [validateBooleans, validateInterface, hn]

/-- A successful run of the mode switch and what follows it, characterised. -/
theorem validateMode_success_iff (h : Host) (mode : String) (fs : FlagSet)
    (p b d c f n : String) (co : ConfigOptions) (hn : fs "interface" = some n) :
    (validateMode h mode fs p b d c f).outcome = .returned (co, none) ↔
      (mode = "info" ∨ mode = "pcap" ∨ mode = "listen") ∧ (mode = "pcap" → h.stat p = none) ∧
      ∃ ni, (ValidateNetworkInterfaceByName h n).outcome = .returned (ni, none) ∧
        co = successConfig h mode p b d c f ni := by
  unfold validateMode
  rw [modeSwitch_eq]
  by_cases hm : mode = "info" ∨ mode = "pcap" ∨ mode = "listen"
  · simp only [hm, if_true, true_and]
    by_cases hp : mode = "pcap"
    · subst hp
      cases hs : h.stat p with
      | some e => by_cases he : e.notExist <;> simp [he, Errorf]
      | none =>
        simp only [if_true, validateBooleans_outcome h fs _ b d c f n _ hn, true_and,
          forall_const]
        rcases hr : (ValidateNetworkInterfaceByName h n).outcome with ⟨ni, _ | err⟩ | _ | _
        · by_cases hb : b = "true" <;> by_cases hf : f = "" <;>
            simp [successConfig, hb, hf, eq_comm]
        · simp
        · simp
        · simp
    · simp only [hp, if_false, validateBooleans_outcome h fs _ b d c f n _ hn,
        false_implies, true_and]
      rcases hr : (ValidateNetworkInterfaceByName h n).outcome with ⟨ni, _ | err⟩ | _ | _
      · by_cases hb : b = "true" <;> by_cases hf : f = "" <;>
          simp [successConfig, hb, hf, hp, eq_comm]
      · simp
      · simp
      · simp
  · simp [hm, Errorf]

/-- With the interface flag not defined, the mode switch and what follows it never
succeed. -/
theorem validateMode_no_success_of_undefined (h : Host) (mode : String) (fs : FlagSet)
    (p b d c f : String) (co : ConfigOptions) (hn : fs "interface" = none) :
    (validateMode h mode fs p b d c f).outcome ≠ .returned (co, none) := by
  unfold validateMode
  cases hm : modeSwitch mode with
  | none => simp [Errorf]
  | some co0 =>
    by_cases hp : co0.Mode = "pcap"
    · cases hs : h.stat p with
      | some e => by_cases he : e.notExist <;> simp [hp, he, Errorf]
      | none => simp [hp, validateBooleans_of_undefined _ _ _ _ _ _ _ _ hn]
    · simp [hp, validateBooleans_of_undefined _ _ _ _ _ _ _ _ hn]

/-- A successful run of `ValidateConfigOptions`, characterised: the six flags are
defined, the mode is one of the three, the probe succeeds when the mode is `pcap`, the
interface resolves, and the configuration is `successConfig`. -/
theorem ValidateConfigOptions_success_iff (h : Host) (mode : String) (fs : FlagSet)
    (co : ConfigOptions) :
    (ValidateConfigOptions h mode fs).outcome = .returned (co, none) ↔
      ∃ p b d c f n ni, fs "pcapfile" = some p ∧ fs "broadcast" = some b ∧
        fs "debug" = some d ∧ fs "clients" = some c ∧ fs "filter" = some f ∧
        fs "interface" = some n ∧
        (mode = "info" ∨ mode = "pcap" ∨ mode = "listen") ∧
        (mode = "pcap" → h.stat p = none) ∧
        (ValidateNetworkInterfaceByName h n).outcome = .returned (ni, none) ∧
        co = successConfig h mode p b d c f ni := by
  constructor
  · intro hok
    cases hp : fs "pcapfile" with
    | none => simp [ValidateConfigOptions_of_undefined h mode fs (Or.inl hp)] at hok
    | some p =>
    cases hb : fs "broadcast" with
    | none => simp [ValidateConfigOptions_of_undefined h mode fs (Or.inr (Or.inl hb))] at hok
    | some b =>
    cases hd : fs "debug" with
    | none =>
      simp [ValidateConfigOptions_of_undefined h mode fs (Or.inr (Or.inr (Or.inl hd)))] at hok
    | some d =>
    cases hc : fs "clients" with
    | none =>
      simp [ValidateConfigOptions_of_undefined h mode fs
        (Or.inr (Or.inr (Or.inr (Or.inl hc))))] at hok
    | some c =>
    cases hf : fs "filter" with
    | none =>
      simp [ValidateConfigOptions_of_undefined h mode fs
        (Or.inr (Or.inr (Or.inr (Or.inr hf))))] at hok
    | some f =>
    rw [ValidateConfigOptions_of_defined h mode fs hp hb hd hc hf] at hok
    cases hn : fs "interface" with
    | none => exact absurd hok (validateMode_no_success_of_undefined h mode fs p b d c f co hn)
    | some n =>
      obtain ⟨hm, hs, ni, hr, hco⟩ := (validateMode_success_iff h mode fs p b d c f n co hn).mp hok
      exact ⟨p, b, d, c, f, n, ni, rfl, rfl, rfl, rfl, rfl, rfl, hm, hs, hr, hco⟩
  · rintro ⟨p, b, d, c, f, n, ni, hp, hb, hd, hc, hf, hn, hm, hs, hr, hco⟩
    rw [ValidateConfigOptions_of_defined h mode fs hp hb hd hc hf]
    exact (validateMode_success_iff h mode fs p b d c f n co hn).mpr ⟨hm, hs, ni, hr, hco⟩

/-- The error component of lines 144-187 depends on the interface flag and the resolver
only. -/
theorem validateBooleans_errorOf (h : Host) (fs : FlagSet) (co : ConfigOptions)
    (b d c f : String) (pre : List Event) :
    errorOf (validateBooleans h fs co b d c f pre).outcome =
      match fs "interface" with
      | none => .panicked
      | some n =>
        match (ValidateNetworkInterfaceByName h n).outcome with
        | .returned (_, e) => .returned e
        | .panicked => .panicked
        | .exited => .exited := by
  cases hn : fs "interface" with
  | none => simp [validateBooleans_of_undefined _ _ _ _ _ _ _ _ hn, errorOf]
  | some n =>
    rw [validateBooleans_outcome h fs co b d c f n pre hn]
    rcases hr : (ValidateNetworkInterfaceByName h n).outcome with ⟨ni, _ | err⟩ | _ | _ <;>
      simp [errorOf, hr]

/-- The error component of a run past the flag reads does not depend on the values of
the broadcast, debug, clients and filter flags, nor on any flag other than
`interface`. -/
theorem validateMode_errorOf_congr (h : Host) (mode : String) (fs fs2 : FlagSet)
    (hI : fs "interface" = fs2 "interface") (p b d c f b2 d2 c2 f2 : String) :
    errorOf (validateMode h mode fs p b d c f).outcome =
      errorOf (validateMode h mode fs2 p b2 d2 c2 f2).outcome := by
  unfold validateMode
  cases hm : modeSwitch mode with
  | none => rfl
  | some co0 =>
    by_cases hp : co0.Mode = "pcap"
    · cases hs : h.stat p with
      | some e => by_cases he : e.notExist <;> simp [hp, he]
      | none => simp [hp, validateBooleans_errorOf, hI]
    · simp [hp, validateBooleans_errorOf, hI]

/-- The resolver does not read the filesystem probe of the host. -/
theorem ValidateNetworkInterfaceByName_stat (h : Host) (s : String → Option GoError)
    (name : String) :
    ValidateNetworkInterfaceByName { h with stat := s } name =
      ValidateNetworkInterfaceByName h name := rfl

/-- Lines 144-187 read neither the filesystem probe nor any flag other than
`interface`. -/
theorem validateBooleans_stat_congr (h : Host) (s₁ s₂ : String → Option GoError)
    (fs fs2 : FlagSet) (hI : fs "interface" = fs2 "interface") (co : ConfigOptions)
    (b d c f : String) (pre : List Event) :
    validateBooleans { h with stat := s₁ } fs co b d c f pre =
      validateBooleans { h with stat := s₂ } fs2 co b d c f pre := by
  simp only [validateBooleans, validateInterface, hI, ValidateNetworkInterfaceByName_stat]
  rfl

/-- For a mode other than `pcap`, the run past the flag reads ignores the pcapfile value
and the filesystem. -/
theorem validateMode_skips_pcap (h : Host) (s₁ s₂ : String → Option GoError) (mode : String)
    (hmode : mode ≠ "pcap") (fs fs2 : FlagSet) (hI : fs "interface" = fs2 "interface")
    (p q b d c f : String) :
    validateMode { h with stat := s₁ } mode fs p b d c f =
      validateMode { h with stat := s₂ } mode fs2 q b d c f := by
  unfold validateMode
  rw [modeSwitch_eq]
  by_cases hm : mode = "info" ∨ mode = "pcap" ∨ mode = "listen"
  · rw [if_pos hm]
    simp only [hmode, if_false]
    exact validateBooleans_stat_congr h s₁ s₂ fs fs2 hI _ b d c f []
  · rw [if_neg hm]

/-- For a mode other than `pcap`, no run performs the filesystem probe. -/
theorem ValidateConfigOptions_no_stat (h : Host) (mode : String) (hmode : mode ≠ "pcap")
    (fs : FlagSet) : ∀ e ∈ (ValidateConfigOptions h mode fs).trace, e.isStat = false := by
  unfold ValidateConfigOptions
  cases hp : fs "pcapfile" <;> cases hb : fs "broadcast" <;> cases hd : fs "debug" <;>
    cases hc : fs "clients" <;> cases hf : fs "filter" <;>
    simp only [List.not_mem_nil, false_implies, implies_true]
  unfold validateMode
  rw [modeSwitch_eq]
  by_cases hm : mode = "info" ∨ mode = "pcap" ∨ mode = "listen"
  · rw [if_pos hm]
    simp only [hmode, if_false, validateBooleans_trace]
    cases hn : fs "interface" with
    | none => simp
    | some n => simpa using ValidateNetworkInterfaceByName_no_stat h n
  · simp [hm]

/-! ## Claims C1 to C5 -/

/-- Claim C1: for every mode other than `info`, `pcap` and `listen`, and every flag set
in which pcapfile, broadcast, debug, clients and filter are defined, on every host,
`ValidateConfigOptions` performs no host call (neither the pcap-file probe nor the
interface resolution) and returns the zero `ConfigOptions` with an error whose text
names the mode as not valid. -/
theorem C1_invalid_mode (h : Host) (mode : String) (fs : FlagSet)
    (hinfo : mode ≠ "info") (hpcap : mode ≠ "pcap") (hlisten : mode ≠ "listen")
    (dp : fs "pcapfile" ≠ none) (db : fs "broadcast" ≠ none) (dd : fs "debug" ≠ none)
    (dc : fs "clients" ≠ none) (df : fs "filter" ≠ none) :
    ValidateConfigOptions h mode fs =
      ⟨[], .returned ({}, some ⟨"the requested mode \"" ++ mode ++ "\" is not a valid mode",
        false⟩)⟩ := by
  obtain ⟨p, hp⟩ := Option.ne_none_iff_exists'.mp dp
  obtain ⟨b, hb⟩ := Option.ne_none_iff_exists'.mp db
  obtain ⟨d, hd⟩ := Option.ne_none_iff_exists'.mp dd
  obtain ⟨c, hc⟩ := Option.ne_none_iff_exists'.mp dc
  obtain ⟨f, hf⟩ := Option.ne_none_iff_exists'.mp df
  rw [ValidateConfigOptions_of_defined h mode fs hp hb hd hc hf]
  simp [validateMode, modeSwitch, hinfo, hpcap, hlisten, Errorf]

/-- Witness for C1: the mode `bogus` on the sample host and flags. -/
theorem C1_invalid_mode_witness :
    ValidateConfigOptions sampleHost "bogus" sampleFlags =
      ⟨[], .returned ({}, some ⟨"the requested mode \"bogus\" is not a valid mode", false⟩)⟩ :=
  C1_invalid_mode sampleHost "bogus" sampleFlags (by decide) (by decide) (by decide)
    (by decide) (by decide) (by decide) (by decide) (by decide)

/-- Claim C2: in mode `pcap`, with the pcapfile flag holding `p` (and the other four
flags read at entry defined): when the probe reports that `p` does not exist, the
run returns the zero configuration and an error naming `p` as not existing; when the
probe fails otherwise, it returns the zero configuration and that very error; when the
probe succeeds and the interface resolves, it returns no error and `PcapFile` is `p`. -/
theorem C2_pcap_file_probe (h : Host) (fs : FlagSet) (p b d c f : String)
    (hp : fs "pcapfile" = some p) (hb : fs "broadcast" = some b) (hd : fs "debug" = some d)
    (hc : fs "clients" = some c) (hf : fs "filter" = some f) :
    (∀ e, h.stat p = some e → e.notExist = true →
      ValidateConfigOptions h "pcap" fs =
        ⟨[.stat p], .returned ({},
          some ⟨"the requested pcapfile \"" ++ p ++ "\" does not exist", false⟩)⟩) ∧
    (∀ e, h.stat p = some e → e.notExist = false →
      ValidateConfigOptions h "pcap" fs = ⟨[.stat p], .returned ({}, some e)⟩) ∧
    (∀ n ni, h.stat p = none → fs "interface" = some n →
      (ValidateNetworkInterfaceByName h n).outcome = .returned (ni, none) →
      ∃ co, (ValidateConfigOptions h "pcap" fs).outcome = .returned (co, none) ∧
        co.PcapFile = p ∧ co.Mode = "pcap") := by
  refine ⟨?_, ?_, ?_⟩
  · intro e hs he
    rw [ValidateConfigOptions_of_defined h "pcap" fs hp hb hd hc hf]
    simp [validateMode, modeSwitch, hs, he, Errorf]
  · intro e hs he
    rw [ValidateConfigOptions_of_defined h "pcap" fs hp hb hd hc hf]
    simp [validateMode, modeSwitch, hs, he]
  · intro n ni hs hn hr
    refine ⟨successConfig h "pcap" p b d c f ni, ?_, by simp [successConfig], rfl⟩
    exact (ValidateConfigOptions_success_iff h "pcap" fs _).mpr
      ⟨p, b, d, c, f, n, ni, hp, hb, hd, hc, hf, hn, Or.inr (Or.inl rfl), fun _ => hs, hr, rfl⟩

/-- Witness for C2: on the sample host, a missing file, an unreadable file and an
existing file. -/
theorem C2_pcap_file_probe_witness :
    ValidateConfigOptions sampleHost "pcap" (setFlag sampleFlags "pcapfile" (some "/x")) =
      ⟨[.stat "/x"], .returned ({},
        some ⟨"the requested pcapfile \"/x\" does not exist", false⟩)⟩ ∧
    ValidateConfigOptions sampleHost "pcap"
        (setFlag sampleFlags "pcapfile" (some "/root/locked.pcap")) =
      ⟨[.stat "/root/locked.pcap"], .returned ({}, some ⟨"permission denied", false⟩)⟩ ∧
    ∃ co, (ValidateConfigOptions sampleHost "pcap" sampleFlags).outcome = .returned (co, none) ∧
      co.PcapFile = "/tmp/capture.pcap" ∧ co.Mode = "pcap" :=
  ⟨(C2_pcap_file_probe sampleHost (setFlag sampleFlags "pcapfile" (some "/x"))
      "/x" "true" "false" "10.0.0.5,bogus,10.0.0.6" "" rfl rfl rfl rfl rfl).1
      ⟨"no such file or directory", true⟩ rfl rfl,
   (C2_pcap_file_probe sampleHost (setFlag sampleFlags "pcapfile" (some "/root/locked.pcap"))
      "/root/locked.pcap" "true" "false" "10.0.0.5,bogus,10.0.0.6" "" rfl rfl rfl rfl rfl).2.1
      ⟨"permission denied", false⟩ rfl rfl,
   (C2_pcap_file_probe sampleHost sampleFlags
      "/tmp/capture.pcap" "true" "false" "10.0.0.5,bogus,10.0.0.6" "" rfl rfl rfl rfl rfl).2.2
      "eth0" { Name := "eth0", IPAddress := some [192, 168, 1, 10],
               MACAddress := [2, 66, 172, 17, 0, 2] } rfl rfl (by decide)⟩

/-- The error component of a run depends on the flag set only through the values of
`pcapfile` and `interface` and through which of the other four flags are defined. -/
theorem ValidateConfigOptions_errorOf_congr (h : Host) (mode : String) (fs fs2 : FlagSet)
    (hp : fs "pcapfile" = fs2 "pcapfile") (hI : fs "interface" = fs2 "interface")
    (hb : (fs "broadcast").isSome = (fs2 "broadcast").isSome)
    (hd : (fs "debug").isSome = (fs2 "debug").isSome)
    (hc : (fs "clients").isSome = (fs2 "clients").isSome)
    (hf : (fs "filter").isSome = (fs2 "filter").isSome) :
    errorOf (ValidateConfigOptions h mode fs).outcome =
      errorOf (ValidateConfigOptions h mode fs2).outcome := by
  unfold ValidateConfigOptions
  rw [← hp]
  cases fs "pcapfile" with
  | none => rfl
  | some p =>
    cases hb1 : fs "broadcast" <;> cases hb2 : fs2 "broadcast" <;> simp [hb1, hb2] at hb <;>
      try rfl
    cases hd1 : fs "debug" <;> cases hd2 : fs2 "debug" <;> simp [hd1, hd2] at hd <;> try rfl
    cases hc1 : fs "clients" <;> cases hc2 : fs2 "clients" <;> simp [hc1, hc2] at hc <;>
      try rfl
    cases hf1 : fs "filter" <;> cases hf2 : fs2 "filter" <;> simp [hf1, hf2] at hf <;> try rfl
    exact validateMode_errorOf_congr h mode fs fs2 hI p _ _ _ _ _ _ _ _

/-- Claim C3, as amended: for mode `info` or `listen`, the whole run (host calls and
outcome) is the same for every value the pcapfile flag is defined with and every
filesystem state; no run performs the stat probe; and on success `PcapFile` is the
empty string. -/
theorem C3_pcap_path_ignored (h : Host) (mode : String) (fs : FlagSet)
    (hmode : mode = "info" ∨ mode = "listen") :
    (∀ (s₁ s₂ : String → Option GoError) (p q : String),
      ValidateConfigOptions { h with stat := s₁ } mode (setFlag fs "pcapfile" (some p)) =
        ValidateConfigOptions { h with stat := s₂ } mode (setFlag fs "pcapfile" (some q))) ∧
    (∀ e ∈ (ValidateConfigOptions h mode fs).trace, e.isStat = false) ∧
    (∀ co, (ValidateConfigOptions h mode fs).outcome = .returned (co, none) →
      co.PcapFile = "") := by
  have hne : mode ≠ "pcap" := by
    rcases hmode with rfl | rfl <;> decide
  refine ⟨?_, ValidateConfigOptions_no_stat h mode hne fs, ?_⟩
  · intro s₁ s₂ p q
    have e1 : ∀ v n, n ≠ "pcapfile" → setFlag fs "pcapfile" v n = fs n :=
      fun v n hn => setFlag_other fs _ n v hn
    unfold ValidateConfigOptions
    simp only [setFlag_same, e1 _ "broadcast" (by decide), e1 _ "debug" (by decide),
      e1 _ "clients" (by decide), e1 _ "filter" (by decide)]
    cases fs "broadcast" <;> cases fs "debug" <;> cases fs "clients" <;> cases fs "filter" <;>
      try rfl
    exact validateMode_skips_pcap h s₁ s₂ mode hne _ _
      (by rw [e1 _ "interface" (by decide), e1 _ "interface" (by decide)]) p q _ _ _ _
  · intro co hok
    obtain ⟨p, b, d, c, f, n, ni, -, -, -, -, -, -, -, -, -, hco⟩ :=
      (ValidateConfigOptions_success_iff h mode fs co).mp hok
    simp [hco, successConfig, hne]

/-- Witness for C3: mode `listen` on the sample host and flags, with an empty path on
a filesystem where every probe succeeds against a missing path on a filesystem where
every probe fails. -/
theorem C3_pcap_path_ignored_witness :
    ValidateConfigOptions { sampleHost with stat := fun _ => none } "listen"
        (setFlag sampleFlags "pcapfile" (some "")) =
      ValidateConfigOptions { sampleHost with stat := fun _ => some ⟨"gone", true⟩ } "listen"
        (setFlag sampleFlags "pcapfile" (some "/missing")) ∧
    (∀ e ∈ (ValidateConfigOptions sampleHost "listen" sampleFlags).trace, e.isStat = false) ∧
    sampleConfig.PcapFile = "" :=
  ⟨(C3_pcap_path_ignored sampleHost "listen" sampleFlags (Or.inr rfl)).1 _ _ _ _,
   (C3_pcap_path_ignored sampleHost "listen" sampleFlags (Or.inr rfl)).2.1,
   (C3_pcap_path_ignored sampleHost "listen" sampleFlags (Or.inr rfl)).2.2 sampleConfig
     (by decide)⟩

/-- Counterexample to C3 as stated: in mode `info`, with the pcapfile flag absent from
the sample flag set the run panics at line 109, while with the flag defined as the
empty string the run succeeds. -/
theorem C3_counterexample :
    ValidateConfigOptions sampleHost "info" (setFlag sampleFlags "pcapfile" none) =
      ⟨[], .panicked⟩ ∧
    errorOf (ValidateConfigOptions sampleHost "info"
      (setFlag sampleFlags "pcapfile" (some ""))).outcome = .returned none := by
  decide

/-- Claim C4, as amended: on every successful run `EnableBroadcast` is true exactly when
the broadcast flag holds the string `true`, and `EnableDebug` exactly when the debug
flag does; and for flags that are defined, the error component of the outcome is the
same whatever strings the two flags hold. -/
theorem C4_boolean_coercion (h : Host) (mode : String) (fs : FlagSet) :
    (∀ co, (ValidateConfigOptions h mode fs).outcome = .returned (co, none) →
      (co.EnableBroadcast = true ↔ fs "broadcast" = some "true") ∧
      (co.EnableDebug = true ↔ fs "debug" = some "true")) ∧
    (∀ b d b2 d2 : String,
      errorOf (ValidateConfigOptions h mode
          (setFlag (setFlag fs "broadcast" (some b)) "debug" (some d))).outcome =
        errorOf (ValidateConfigOptions h mode
          (setFlag (setFlag fs "broadcast" (some b2)) "debug" (some d2))).outcome) := by
  constructor
  · intro co hok
    obtain ⟨p, b, d, c, f, n, ni, -, hb, hd, -, -, -, -, -, -, hco⟩ :=
      (ValidateConfigOptions_success_iff h mode fs co).mp hok
    simp [hco, successConfig, hb, hd]
  · intro b d b2 d2
    apply ValidateConfigOptions_errorOf_congr <;> simp [setFlag]

/-- Witness for C4: the sample run in mode `listen`, whose broadcast flag is `true` and
whose debug flag is `false`; and the same error component with the strings `TRUE`
and `1` as with `true` and `false`. -/
theorem C4_boolean_coercion_witness :
    ((sampleConfig.EnableBroadcast = true ↔ sampleFlags "broadcast" = some "true") ∧
      (sampleConfig.EnableDebug = true ↔ sampleFlags "debug" = some "true")) ∧
    errorOf (ValidateConfigOptions sampleHost "listen"
        (setFlag (setFlag sampleFlags "broadcast" (some "TRUE")) "debug" (some "1"))).outcome =
      errorOf (ValidateConfigOptions sampleHost "listen"
        (setFlag (setFlag sampleFlags "broadcast" (some "true")) "debug"
          (some "false"))).outcome :=
  ⟨(C4_boolean_coercion sampleHost "listen" sampleFlags).1 sampleConfig (by decide),
   (C4_boolean_coercion sampleHost "listen" sampleFlags).2 _ _ _ _⟩

/-- Counterexample to C4 as stated: with the broadcast flag, or the debug flag, absent
from the sample flag set the run panics (lines 110 and 111) instead of yielding
`false`. -/
theorem C4_counterexample :
    ValidateConfigOptions sampleHost "listen" (setFlag sampleFlags "broadcast" none) =
      ⟨[], .panicked⟩ ∧
    ValidateConfigOptions sampleHost "listen" (setFlag sampleFlags "debug" none) =
      ⟨[], .panicked⟩ := by
  decide

/-- Claim C5 at its failing input: in mode `info` with the interface flag naming the
unknown interface `nope0`, the run returns the lookup error together with a
configuration that is not the zero value: `Mode` and `EnableBroadcast` are set. -/
theorem C5_interface_failure_keeps_accumulated_config :
    (ValidateConfigOptions sampleHost "info"
        (setFlag sampleFlags "interface" (some "nope0"))).outcome =
      .returned ({ Mode := "info", EnableBroadcast := true },
        some ⟨"route ip+net: no such network interface", false⟩) ∧
    ({ Mode := "info", EnableBroadcast := true } : ConfigOptions) ≠ {} := by
  decide

/-- Every error return hands back the zero configuration, except the return of an
interface resolution failure (line 164), which hands back a configuration whose
`Mode` is the requested, valid mode. -/
theorem ValidateConfigOptions_error_config (h : Host) (mode : String) (fs : FlagSet)
    (co : ConfigOptions) (e : GoError)
    (herr : (ValidateConfigOptions h mode fs).outcome = .returned (co, some e)) :
    co = {} ∨
      (∃ n ni, fs "interface" = some n ∧
        (ValidateNetworkInterfaceByName h n).outcome = .returned (ni, some e) ∧
        co.Mode = mode ∧ (mode = "info" ∨ mode = "pcap" ∨ mode = "listen")) := by
  unfold ValidateConfigOptions at herr
  cases hp : fs "pcapfile" <;> cases hb : fs "broadcast" <;> cases hd : fs "debug" <;>
    cases hc : fs "clients" <;> cases hf : fs "filter" <;>
    simp only [hp, hb, hd, hc, hf, reduceCtorEq] at herr
  rename_i p b d c f
  unfold validateMode at herr
  rw [modeSwitch_eq] at herr
  by_cases hm : mode = "info" ∨ mode = "pcap" ∨ mode = "listen"
  · rw [if_pos hm] at herr
    cases hn : fs "interface" with
    | none =>
      by_cases hpc : mode = "pcap"
      · cases hs : h.stat p with
        | none => simp [hpc, hs, validateBooleans_of_undefined _ _ _ _ _ _ _ _ hn] at herr
        | some e2 =>
          by_cases he : e2.notExist <;> simp [hpc, hs, he] at herr <;> exact Or.inl herr.1.symm
      · simp [hpc, validateBooleans_of_undefined _ _ _ _ _ _ _ _ hn] at herr
    | some n =>
      by_cases hpc : mode = "pcap"
      · cases hs : h.stat p with
        | some e2 =>
          by_cases he : e2.notExist <;> simp [hpc, hs, he] at herr <;> exact Or.inl herr.1.symm
        | none =>
          rcases hr : (ValidateNetworkInterfaceByName h n).outcome with ⟨ni, _ | err⟩ | _ | _ <;>
            simp [hpc, hs, hr, validateBooleans_outcome h fs _ b d c f n _ hn] at herr
          exact Or.inr ⟨n, ni, rfl, by rw [hr, herr.2], by rw [← herr.1, hpc], hm⟩
      · rcases hr : (ValidateNetworkInterfaceByName h n).outcome with ⟨ni, _ | err⟩ | _ | _ <;>
          simp [hpc, hr, validateBooleans_outcome h fs _ b d c f n _ hn] at herr
        exact Or.inr ⟨n, ni, rfl, by rw [hr, herr.2], by rw [← herr.1], hm⟩
  · rw [if_neg hm] at herr
    simp at herr
    exact Or.inl herr.1.symm

/-- On success the mode, interface, filter and boolean fields are all set: the mode is
the requested valid mode, the interface is the resolver's result, the filter is not
empty, and the booleans are the coercions of their flags. -/
theorem ValidateConfigOptions_success_populated (h : Host) (mode : String) (fs : FlagSet)
    (co : ConfigOptions)
    (hok : (ValidateConfigOptions h mode fs).outcome = .returned (co, none)) :
    co.Mode = mode ∧ (mode = "info" ∨ mode = "pcap" ∨ mode = "listen") ∧
    (∃ n, fs "interface" = some n ∧
      (ValidateNetworkInterfaceByName h n).outcome = .returned (co.NetworkInteface, none)) ∧
    co.BPFFilter ≠ "" ∧
    (∃ b, fs "broadcast" = some b ∧ co.EnableBroadcast = decide (b = "true")) ∧
    (∃ d, fs "debug" = some d ∧ co.EnableDebug = decide (d = "true")) := by
  obtain ⟨p, b, d, c, f, n, ni, -, hb, hd, -, -, hn, hm, -, hr, hco⟩ :=
    (ValidateConfigOptions_success_iff h mode fs co).mp hok
  subst hco
  refine ⟨rfl, hm, ⟨n, hn, hr⟩, ?_, ⟨b, hb, rfl⟩, ⟨d, hd, rfl⟩⟩
  by_cases hf : f = "" <;> simp [successConfig, hf]

/-! ## The client list (claim C9) -/

theorem splitComma_ne_nil (cs : List Char) : splitComma cs ≠ [] := by
  cases cs with
  | nil => simp [splitComma]
  | cons c cs =>
    unfold splitComma
    by_cases hc : c = ','
    · simp [hc]
    · cases splitComma cs <;> simp [hc]

/-- There is one piece more than there are commas. -/
theorem splitComma_length (cs : List Char) : (splitComma cs).length = cs.count ',' + 1 := by
  induction cs with
  | nil => simp [splitComma]
  | cons c cs ih =>
    unfold splitComma
    by_cases hc : c = ','
    · subst hc
      simp [ih]
    · have hne := splitComma_ne_nil cs
      cases hs : splitComma cs with
      | nil => exact absurd hs hne
      | cons piece pieces =>
        rw [hs] at ih
        simp only [hc, if_false]
        rw [List.count_cons_of_ne (fun h => hc h.symm)]
        simpa using ih

/-- No piece contains a comma. -/
theorem splitComma_no_comma (cs : List Char) : ∀ piece ∈ splitComma cs, ',' ∉ piece := by
  induction cs with
  | nil => simp [splitComma]
  | cons c cs ih =>
    unfold splitComma
    by_cases hc : c = ','
    · subst hc
      intro piece hp
      simp only [if_true, List.mem_cons] at hp
      rcases hp with rfl | hp
      · simp
      · exact ih piece hp
    · cases hs : splitComma cs with
      | nil => simp [hc, Ne.symm hc]
      | cons piece pieces =>
        rw [hs] at ih
        intro q hq
        simp only [hc, if_false, List.mem_cons] at hq
        rcases hq with rfl | hq
        · have := ih piece (List.mem_cons_self _ _)
          simp [Ne.symm hc, this]
        · exact ih q (List.mem_cons_of_mem _ hq)

/-- Joining the pieces with commas gives the input back. -/
theorem joinComma_splitComma (cs : List Char) : joinComma (splitComma cs) = cs := by
  induction cs with
  | nil => simp [splitComma, joinComma]
  | cons c cs ih =>
    unfold splitComma
    by_cases hc : c = ','
    · subst hc
      have hne := splitComma_ne_nil cs
      cases hs : splitComma cs with
      | nil => exact absurd hs hne
      | cons piece pieces =>
        rw [hs] at ih
        simp [joinComma, ih]
    · cases hs : splitComma cs with
      | nil => exact absurd hs (splitComma_ne_nil cs)
      | cons piece pieces =>
        rw [hs] at ih
        simp only [hc, if_false]
        cases pieces with
        | nil =>
          simp only [joinComma] at ih ⊢
          rw [ih]
        | cons next rest =>
          simp only [joinComma] at ih ⊢
          rw [← ih]
          simp

/-- The split is the only way to cut the input at its commas: a non-empty list of
comma-free pieces whose join is the input is the list `splitComma` computes. -/
theorem splitComma_unique (cs : List Char) (pieces : List (List Char)) (hne : pieces ≠ [])
    (hfree : ∀ piece ∈ pieces, ',' ∉ piece) (hjoin : joinComma pieces = cs) :
    pieces = splitComma cs := by
  induction cs generalizing pieces with
  | nil =>
    match pieces, hne, hfree, hjoin with
    | [piece], _, _, hjoin =>
      simp only [joinComma] at hjoin
      simp [splitComma, hjoin]
    | piece :: next :: rest, _, _, hjoin => simp [joinComma] at hjoin
  | cons c cs ih =>
    match pieces, hne, hfree, hjoin with
    | [piece], _, hfree, hjoin =>
      simp only [joinComma] at hjoin
      subst hjoin
      have hc : c ≠ ',' := fun h => hfree _ (List.mem_singleton_self _) (by simp [h])
      have := ih [cs] (by simp)
        (fun q hq => by
          rw [List.mem_singleton] at hq
          subst hq
          exact fun hm => hfree _ (List.mem_singleton_self _) (List.mem_cons_of_mem _ hm))
        rfl
      unfold splitComma
      simp [hc, ← this]
    | [] :: next :: rest, _, hfree, hjoin =>
      simp only [joinComma, List.nil_append, List.cons.injEq] at hjoin
      obtain ⟨hc, hrest⟩ := hjoin
      have := ih (next :: rest) (by simp)
        (fun q hq => hfree q (List.mem_cons_of_mem _ hq)) hrest
      unfold splitComma
      simp [← hc, ← this]
    | (x :: piece) :: next :: rest, _, hfree, hjoin =>
      simp only [joinComma, List.cons_append, List.cons.injEq] at hjoin
      obtain ⟨hx, hrest⟩ := hjoin
      subst hx
      have hc : x ≠ ',' := fun h => hfree _ (List.mem_cons_self _ _) (by simp [h])
      have := ih (piece :: next :: rest) (by simp)
        (fun q hq => by
          rcases List.mem_cons.mp hq with rfl | hq
          · exact fun hm => hfree _ (List.mem_cons_self _ _) (List.mem_cons_of_mem _ hm)
          · exact hfree q (List.mem_cons_of_mem _ hq))
        (by simpa [joinComma] using hrest)
      unfold splitComma
      simp [hc, ← this]

/-- Claim C9: on every successful run, if `EnableBroadcast` is false then `Clients` is
empty; if it is true then `Clients` is the list of the `net.ParseIP` results (nil for
a malformed piece) of the comma-separated pieces of the clients flag, one entry per
piece and in the same order, so one entry more than the flag has commas, and a single
entry for the empty flag. Whatever string the clients flag holds, the error component
of the outcome is the same. -/
theorem C9_client_list (h : Host) (mode : String) (fs : FlagSet) (co : ConfigOptions)
    (hok : (ValidateConfigOptions h mode fs).outcome = .returned (co, none)) :
    (co.EnableBroadcast = false → co.Clients = []) ∧
    (co.EnableBroadcast = true → ∃ c, fs "clients" = some c ∧
      co.Clients = (Split c).map h.parseIP ∧
      joinComma ((Split c).map String.data) = c.data ∧
      (∀ piece ∈ Split c, ',' ∉ piece.data) ∧
      co.Clients.length = c.data.count ',' + 1 ∧
      (c = "" → co.Clients = [h.parseIP ""])) ∧
    (∀ c c2 : String,
      errorOf (ValidateConfigOptions h mode (setFlag fs "clients" (some c))).outcome =
        errorOf (ValidateConfigOptions h mode (setFlag fs "clients" (some c2))).outcome) := by
  obtain ⟨p, b, d, c, f, n, ni, -, hb, -, hc, -, -, -, -, -, hco⟩ :=
    (ValidateConfigOptions_success_iff h mode fs co).mp hok
  subst hco
  refine ⟨?_, ?_, ?_⟩
  · intro hf
    have : ¬ b = "true" := by simpa [successConfig] using hf
    simp [successConfig, this]
  · intro ht
    have hbt : b = "true" := by simpa [successConfig] using ht
    refine ⟨c, hc, by simp [successConfig, hbt], ?_, ?_, ?_, ?_⟩
    · simp only [Split, List.map_map]
      have : (String.data ∘ String.mk) = id := by
        funext x
        rfl
      rw [this, List.map_id, joinComma_splitComma]
    · intro piece hp
      simp only [Split, List.mem_map] at hp
      obtain ⟨q, hq, rfl⟩ := hp
      exact splitComma_no_comma c.data q hq
    · simp [successConfig, hbt, Split, splitComma_length]
    · intro hce
      subst hce
      simp [successConfig, hbt, Split, splitComma]
  · intro c1 c2
    apply ValidateConfigOptions_errorOf_congr <;> simp [setFlag]

/-- Witness for C9: the sample run in mode `listen`, whose clients flag has a malformed
middle piece. -/
theorem C9_client_list_witness :
    (ValidateConfigOptions sampleHost "listen" sampleFlags).outcome =
      .returned (sampleConfig, none) ∧
    sampleConfig.EnableBroadcast = true ∧
    ∃ c, sampleFlags "clients" = some c ∧
      sampleConfig.Clients = (Split c).map sampleHost.parseIP ∧
      joinComma ((Split c).map String.data) = c.data ∧
      (∀ piece ∈ Split c, ',' ∉ piece.data) ∧
      sampleConfig.Clients.length = c.data.count ',' + 1 ∧
      (c = "" → sampleConfig.Clients = [sampleHost.parseIP ""]) :=
  ⟨by decide, rfl,
   (C9_client_list sampleHost "listen" sampleFlags sampleConfig (by decide)).2.1 rfl⟩

/-! ## Discovery dispatcher (claims C6, C7, C8) -/

theorem sends_map_close (deferred : List Nat) : sends (deferred.map Event.close) = [] := by
  induction deferred with
  | nil => rfl
  | cons a l ih => simpa [sends] using ih

theorem sends_runDeferred (deferred : List Nat) : sends (runDeferred deferred) = [] :=
  sends_map_close deferred

/-- A peer all of whose steps succeed is sent the payload, and the loop goes on with
its socket on the stack of deferred closes. -/
theorem sends_sendLoop_cons_of_succeeds (h : Host) (co : ConfigOptions) (b : List Nat)
    (i : Nat) (clientIp : String) (rest : List String) (deferred : List Nat)
    (ServerAddr : UDPAddr) (hok : peerSucceeds h co b i clientIp = some ServerAddr) :
    sends (sendLoop h co b i (clientIp :: rest) deferred) =
      (ServerAddr, b) :: sends (sendLoop h co b (i + 1) rest (i :: deferred)) := by
  unfold peerSucceeds at hok
  cases hs : h.resolveUDPAddr i (clientIp ++ ":4992") with
  | err e => simp [hs] at hok
  | ok S =>
    cases hl : h.resolveUDPAddr i (h.ipString co.NetworkInteface.IPAddress ++ ":0") with
    | err e => simp [hs, hl] at hok
    | ok L =>
      cases hd : h.dialUDP i L S with
      | some e => simp [hs, hl, hd] at hok
      | none =>
        cases hw : h.connWrite i b with
        | some e => simp [hs, hl, hd, hw] at hok
        | none =>
          simp only [hs, hl, hd, hw, Option.some.injEq] at hok
          subst hok
          simp [sendLoop, hs, hl, hd, hw, sends]

/-- A peer one of whose steps fails ends the loop: nothing is sent to it or after it. -/
theorem sends_sendLoop_cons_of_fails (h : Host) (co : ConfigOptions) (b : List Nat)
    (i : Nat) (clientIp : String) (rest : List String) (deferred : List Nat)
    (hfail : peerSucceeds h co b i clientIp = none) :
    sends (sendLoop h co b i (clientIp :: rest) deferred) = [] := by
  unfold peerSucceeds at hfail
  cases hs : h.resolveUDPAddr i (clientIp ++ ":4992") with
  | err e => simp [sendLoop, hs, sends, sends_runDeferred]
  | ok S =>
    cases hl : h.resolveUDPAddr i (h.ipString co.NetworkInteface.IPAddress ++ ":0") with
    | err e => simp [sendLoop, hs, hl, sends, sends_runDeferred]
    | ok L =>
      cases hd : h.dialUDP i L S with
      | some e => simp [sendLoop, hs, hl, hd, sends, sends_runDeferred]
      | none =>
        cases hw : h.connWrite i b with
        | some e => simp [sendLoop, hs, hl, hd, hw, sends, sends_runDeferred, sends_map_close]
        | none => simp [hs, hl, hd, hw] at hfail

/-- The successful sends of the loop are those to the peers before the first peer with
a failing step. -/
theorem sends_sendLoop (h : Host) (co : ConfigOptions) (b : List Nat) (peers : List String) :
    ∀ (i : Nat) (deferred : List Nat),
      sends (sendLoop h co b i peers deferred) = servedBeforeFailure h co b i peers := by
  induction peers with
  | nil =>
    intro i deferred
    simp [sendLoop, sends_runDeferred, servedBeforeFailure]
  | cons clientIp rest ih =>
    intro i deferred
    cases hok : peerSucceeds h co b i clientIp with
    | none =>
      rw [sends_sendLoop_cons_of_fails h co b i clientIp rest deferred hok]
      simp [servedBeforeFailure, List.enumFrom_cons, List.takeWhile_cons, hok]
    | some ServerAddr =>
      rw [sends_sendLoop_cons_of_succeeds h co b i clientIp rest deferred ServerAddr hok, ih]
      simp [servedBeforeFailure, List.enumFrom_cons, List.takeWhile_cons, hok]

/-- The loop reads the host only through the resolver, the dialler, the writer and
`net.IP.String`. -/
theorem sendLoop_congr (h h2 : Host) (co : ConfigOptions) (b : List Nat)
    (hr : h.resolveUDPAddr = h2.resolveUDPAddr) (hi : h.ipString = h2.ipString)
    (hd : h.dialUDP = h2.dialUDP) (hw : h.connWrite = h2.connWrite) (peers : List String) :
    ∀ (i : Nat) (deferred : List Nat),
      sendLoop h co b i peers deferred = sendLoop h2 co b i peers deferred := by
  induction peers with
  | nil =>
    intro i deferred
    rfl
  | cons clientIp rest ih =>
    intro i deferred
    simp only [sendLoop, ih, hr, hi, hd, hw]

/-- The peers listed after a peer with a failing step play no part in the loop: its
events are those of the loop over the list cut after the failing peer. -/
theorem sendLoop_stops_at_failure (h : Host) (co : ConfigOptions) (b : List Nat)
    (pre : List String) (clientIp : String) (post : List String) :
    ∀ (i : Nat) (deferred : List Nat),
      peerSucceeds h co b (i + pre.length) clientIp = none →
      sendLoop h co b i (pre ++ clientIp :: post) deferred =
        sendLoop h co b i (pre ++ [clientIp]) deferred := by
  induction pre with
  | nil =>
    intro i deferred hfail
    simp only [List.length_nil, Nat.add_zero, peerSucceeds] at hfail
    simp only [List.nil_append, sendLoop]
    cases hs : h.resolveUDPAddr i (clientIp ++ ":4992") with
    | err e => rfl
    | ok S =>
      cases hl : h.resolveUDPAddr i (h.ipString co.NetworkInteface.IPAddress ++ ":0") with
      | err e => rfl
      | ok L =>
        cases hd : h.dialUDP i L S with
        | some e => simp [hd]
        | none =>
          cases hw : h.connWrite i b with
          | some e => simp [hd, hw]
          | none => simp [hs, hl, hd, hw] at hfail
  | cons first pre ih =>
    intro i deferred hfail
    have hpos : i + 1 + pre.length = i + (first :: pre).length := by
      simp only [List.length_cons]
      omega
    have ih2 := ih (i + 1) (i :: deferred) (by rw [hpos]; exact hfail)
    simp only [List.cons_append, sendLoop, List.append_eq, ih2]

/-- Claim C6, as amended: when broadcasting is enabled and the directory, the serializer
and the peer list are obtained, the peers that are sent the payload are exactly the
peers that come before the first peer one of whose steps (destination resolution,
local-address resolution, dial, write) fails, in list order, each at the destination
resolved from its address and port 4992 and with the full payload; the first failure
ends the dispatch: when the first peer fails nothing is sent at all, and the run is,
event for event, the run over the peer list cut after the failing peer. -/
theorem C6_dispatch_stops_at_first_failure (h : Host) (co : ConfigOptions) (p : VRT)
    (b : List Nat) (peers : List String) (hon : co.EnableBroadcast = true)
    (hdb : h.usersDb = none) (hser : h.serializeTo p = .ok b)
    (hdir : h.getUserIpAddresses = .ok peers) :
    sends (MaybeSendDiscoveryPacket h co p).trace = servedBeforeFailure h co b 0 peers ∧
    (∀ clientIp rest, peers = clientIp :: rest → peerSucceeds h co b 0 clientIp = none →
      sends (MaybeSendDiscoveryPacket h co p).trace = []) ∧
    (∀ pre clientIp post, peers = pre ++ clientIp :: post →
      peerSucceeds h co b pre.length clientIp = none →
      MaybeSendDiscoveryPacket h co p =
        MaybeSendDiscoveryPacket { h with getUserIpAddresses := .ok (pre ++ [clientIp]) }
          co p) := by
  have hmain : sends (MaybeSendDiscoveryPacket h co p).trace =
      servedBeforeFailure h co b 0 peers := by
    simp [MaybeSendDiscoveryPacket, hon, hdb, hser, hdir, sends, sends_sendLoop]
  refine ⟨hmain, ?_, ?_⟩
  · intro clientIp rest hp hfail
    rw [hmain, hp]
    simp [servedBeforeFailure, List.enumFrom_cons, List.takeWhile_cons, hfail]
  · intro pre clientIp post hp hfail
    have hcut := sendLoop_stops_at_failure h co b pre clientIp post 0 []
      (by simpa using hfail)
    generalize hh2 : ({ h with getUserIpAddresses := .ok (pre ++ [clientIp]) } : Host) = h2
    have e1 : h2.usersDb = none := by rw [← hh2]; exact hdb
    have e2 : h2.serializeTo p = .ok b := by rw [← hh2]; exact hser
    have e3 : h2.getUserIpAddresses = .ok (pre ++ [clientIp]) := by rw [← hh2]
    have e4 := sendLoop_congr h h2 co b (by rw [← hh2]) (by rw [← hh2]) (by rw [← hh2])
      (by rw [← hh2]) (pre ++ [clientIp]) 0 []
    have hL : MaybeSendDiscoveryPacket h co p =
        ⟨[.usersDb, .serialize, .getUserIpAddresses] ++ sendLoop h co b 0 peers [],
          .returned ()⟩ := by
      simp [MaybeSendDiscoveryPacket, hon, hdb, hser, hdir]
    have hR : MaybeSendDiscoveryPacket h2 co p =
        ⟨[.usersDb, .serialize, .getUserIpAddresses] ++ sendLoop h2 co b 0 (pre ++ [clientIp]) [],
          .returned ()⟩ := by
      simp [MaybeSendDiscoveryPacket, hon, e1, e2, e3]
    rw [hL, hR, hp, hcut, e4]

/-- Witness for C6: on the sample host both peers succeed and both are sent the packet
bytes on port 4992; with a first peer that does not resolve nothing is sent. -/
theorem C6_dispatch_stops_at_first_failure_witness :
    sends (MaybeSendDiscoveryPacket sampleHost sampleConfig samplePacket).trace =
      [(⟨[10, 0, 0, 5], 4992⟩, [56, 0, 0, 2, 1, 2]), (⟨[10, 0, 0, 6], 4992⟩, [56, 0, 0, 2, 1, 2])] ∧
    sends (MaybeSendDiscoveryPacket sampleHostBadFirstPeer sampleConfig samplePacket).trace = [] :=
  ⟨(C6_dispatch_stops_at_first_failure sampleHost sampleConfig samplePacket
      [56, 0, 0, 2, 1, 2] ["10.0.0.5", "10.0.0.6"] rfl rfl rfl rfl).1.trans (by decide),
   (C6_dispatch_stops_at_first_failure sampleHostBadFirstPeer sampleConfig samplePacket
      [56, 0, 0, 2, 1, 2] ["not-a-host", "10.0.0.6"] rfl rfl rfl rfl).2.1
      "not-a-host" ["10.0.0.6"] rfl (by decide)⟩

/-- Counterexample to C6 as stated: the directory lists `not-a-host` and then `10.0.0.6`;
resolving the first fails; every step of the second peer succeeds at its position, yet
no payload is sent to it: the run returns after printing the first peer's error. -/
theorem C6_counterexample :
    sampleHostBadFirstPeer.getUserIpAddresses = .ok ["not-a-host", "10.0.0.6"] ∧
    peerSucceeds sampleHostBadFirstPeer sampleConfig [56, 0, 0, 2, 1, 2] 0 "not-a-host" = none ∧
    peerSucceeds sampleHostBadFirstPeer sampleConfig [56, 0, 0, 2, 1, 2] 1 "10.0.0.6" =
      some ⟨[10, 0, 0, 6], 4992⟩ ∧
    sends (MaybeSendDiscoveryPacket sampleHostBadFirstPeer sampleConfig samplePacket).trace = [] ∧
    (MaybeSendDiscoveryPacket sampleHostBadFirstPeer sampleConfig samplePacket).trace =
      [.usersDb, .serialize, .getUserIpAddresses,
       .println [.str "Sending to Discovery Packet to", .str "not-a-host", .str "on interface",
         .str "eth0"],
       .resolve "not-a-host:4992",
       .println [.str "error with ServerAddr: ", .error ⟨"lookup: no such host", false⟩]] := by
  decide

/-- Claim C8: with `EnableBroadcast` false, for every host, configuration and packet,
the run of `MaybeSendDiscoveryPacket` consists of printing the disabled notice and
returning: no directory lookup, no serialization, no address resolution and no socket
operation. -/
theorem C8_disabled_broadcast_is_silent (h : Host) (co : ConfigOptions) (p : VRT)
    (hoff : co.EnableBroadcast = false) :
    MaybeSendDiscoveryPacket h co p =
      ⟨[.println [.str "Send Discovery Packet Disabled"]], .returned ()⟩ ∧
    ∀ e ∈ (MaybeSendDiscoveryPacket h co p).trace, e.isDispatchWork = false := by
  have hrun : MaybeSendDiscoveryPacket h co p =
      ⟨[.println [.str "Send Discovery Packet Disabled"]], .returned ()⟩ := by
    simp [MaybeSendDiscoveryPacket, hoff]
  refine ⟨hrun, ?_⟩
  rw [hrun]
  simp [Event.isDispatchWork]

/-- Witness for C8: the sample configuration with broadcasting switched off. -/
theorem C8_disabled_broadcast_is_silent_witness :
    MaybeSendDiscoveryPacket sampleHost { sampleConfig with EnableBroadcast := false }
        samplePacket =
      ⟨[.println [.str "Send Discovery Packet Disabled"]], .returned ()⟩ ∧
    ∀ e ∈ (MaybeSendDiscoveryPacket sampleHost { sampleConfig with EnableBroadcast := false }
        samplePacket).trace, e.isDispatchWork = false :=
  C8_disabled_broadcast_is_silent sampleHost { sampleConfig with EnableBroadcast := false }
    samplePacket rfl

/-- Running the deferred closes releases every socket of the stack. -/
theorem openAfter_runDeferred (deferred : List Nat) :
    openAfter deferred (runDeferred deferred) = [] := by
  induction deferred with
  | nil => rfl
  | cons a l ih => simpa [runDeferred, openAfter] using ih

/-- Every socket the loop opens is closed by the time the function returns. -/
theorem openAfter_sendLoop (h : Host) (co : ConfigOptions) (b : List Nat)
    (peers : List String) :
    ∀ (i : Nat) (deferred : List Nat),
      openAfter deferred (sendLoop h co b i peers deferred) = [] := by
  induction peers with
  | nil =>
    intro i deferred
    simpa [sendLoop] using openAfter_runDeferred deferred
  | cons clientIp rest ih =>
    intro i deferred
    have hdef := openAfter_runDeferred deferred
    have hdef2 := openAfter_runDeferred (i :: deferred)
    simp only [sendLoop, openAfter]
    cases hs : h.resolveUDPAddr i (clientIp ++ ":4992") with
    | err e => simpa [openAfter] using hdef
    | ok S =>
      cases hl : h.resolveUDPAddr i (h.ipString co.NetworkInteface.IPAddress ++ ":0") with
      | err e => simpa [openAfter] using hdef
      | ok L =>
        cases hd : h.dialUDP i L S with
        | some e => simpa [openAfter, hd] using hdef
        | none =>
          cases hw : h.connWrite i b with
          | some e => simpa [openAfter, hd, hw] using hdef2
          | none => simpa [openAfter, hd, hw] using ih (i + 1) (i :: deferred)

/-- While the deferred closes run, no more sockets are open than at their start. -/
theorem maxOpen_runDeferred (deferred : List Nat) :
    maxOpen deferred (runDeferred deferred) = deferred.length := by
  induction deferred with
  | nil => rfl
  | cons a l ih =>
    have : maxOpen l (List.map Event.close l) = l.length := ih
    simp [runDeferred, maxOpen, this]

/-- When every step of every peer succeeds, the loop holds one open socket per peer
at the same time: the closes run only after the last peer. -/
theorem maxOpen_sendLoop_of_all_succeed (h : Host) (co : ConfigOptions) (b : List Nat)
    (hall : ∀ j clientIp, (peerSucceeds h co b j clientIp).isSome = true)
    (peers : List String) :
    ∀ (i : Nat) (deferred : List Nat),
      maxOpen deferred (sendLoop h co b i peers deferred) = deferred.length + peers.length := by
  induction peers with
  | nil =>
    intro i deferred
    simpa [sendLoop] using maxOpen_runDeferred deferred
  | cons clientIp rest ih =>
    intro i deferred
    have hok := hall i clientIp
    unfold peerSucceeds at hok
    cases hs : h.resolveUDPAddr i (clientIp ++ ":4992") with
    | err e => simp [hs] at hok
    | ok S =>
      cases hl : h.resolveUDPAddr i (h.ipString co.NetworkInteface.IPAddress ++ ":0") with
      | err e => simp [hs, hl] at hok
      | ok L =>
        cases hd : h.dialUDP i L S with
        | some e => simp [hs, hl, hd] at hok
        | none =>
          cases hw : h.connWrite i b with
          | some e => simp [hs, hl, hd, hw] at hok
          | none =>
            have := ih (i + 1) (i :: deferred)
            simp only [sendLoop, hs, hl, hd, hw, maxOpen, this, List.length_cons]
            omega

/-- Every socket a run of `MaybeSendDiscoveryPacket` opens is closed when it ends. -/
theorem MaybeSendDiscoveryPacket_closes_every_socket (h : Host) (co : ConfigOptions)
    (p : VRT) : openAfter [] (MaybeSendDiscoveryPacket h co p).trace = [] := by
  unfold MaybeSendDiscoveryPacket
  cases hon : co.EnableBroadcast with
  | false => simp [openAfter]
  | true =>
    cases hdb : h.usersDb with
    | some e => simp [openAfter]
    | none =>
      cases hser : h.serializeTo p with
      | err e => simp [openAfter]
      | ok b =>
        cases hdir : h.getUserIpAddresses with
        | err e => simp [openAfter]
        | ok peers => simpa [openAfter] using openAfter_sendLoop h co b peers 0 []

/-- When every step of every peer succeeds, a run of `MaybeSendDiscoveryPacket` over
`n` peers has `n` sockets open at the same time. -/
theorem MaybeSendDiscoveryPacket_holds_all_sockets (h : Host) (co : ConfigOptions) (p : VRT)
    (b : List Nat) (peers : List String) (hon : co.EnableBroadcast = true)
    (hdb : h.usersDb = none) (hser : h.serializeTo p = .ok b)
    (hdir : h.getUserIpAddresses = .ok peers)
    (hall : ∀ j clientIp, (peerSucceeds h co b j clientIp).isSome = true) :
    maxOpen [] (MaybeSendDiscoveryPacket h co p).trace = peers.length := by
  have := maxOpen_sendLoop_of_all_succeed h co b hall peers 0 []
  simpa [MaybeSendDiscoveryPacket, hon, hdb, hser, hdir, maxOpen] using this

/-- Claim C7 at its failing input: on the sample host both peers succeed; the socket
of the first peer is still open when the socket of the second peer is opened, so two
sockets are open at once; both are closed only when the function returns, the latest
first. -/
theorem C7_sockets_overlap :
    (MaybeSendDiscoveryPacket sampleHost sampleConfig samplePacket).trace.filter
        (fun e => e.isDispatchWork && !e.isLookup) =
      [.resolve "10.0.0.5:4992", .resolve "192.168.1.10:0",
       .dial 0 ⟨[192, 168, 1, 10], 0⟩ ⟨[10, 0, 0, 5], 4992⟩ true,
       .write 0 ⟨[10, 0, 0, 5], 4992⟩ [56, 0, 0, 2, 1, 2] true,
       .resolve "10.0.0.6:4992", .resolve "192.168.1.10:0",
       .dial 1 ⟨[192, 168, 1, 10], 0⟩ ⟨[10, 0, 0, 6], 4992⟩ true,
       .write 1 ⟨[10, 0, 0, 6], 4992⟩ [56, 0, 0, 2, 1, 2] true,
       .close 1, .close 0] ∧
    maxOpen [] (MaybeSendDiscoveryPacket sampleHost sampleConfig samplePacket).trace = 2 ∧
    openAfter [] (MaybeSendDiscoveryPacket sampleHost sampleConfig samplePacket).trace = [] := by
  decide

end Flextool
